import Mathlib

/-!
Verification of the content-scraping scripts of the `my-blog` repository.

The development shallowly embeds the two Python scripts:

* `scripts/mcp_scraper.py` — the `MCPContentScraper` class: the browser
  fetch (`scrape_content`), its in-page image filter, the text cleaner
  (`clean_text`) and the template selector (`generate_academic_content`).
* `scripts/enhanced_mcp_generator.py` — the `EnhancedMCPContentGenerator`
  class: the structured extraction pass (`scrape_academic_content`) and
  the five fixed paper templates behind
  `generate_high_quality_academic_paper`.

Text is embedded as `List Char`.  Python regular-expression whitespace
(`\s`) and `str.strip` are modelled over their ASCII whitespace classes,
`str.lower` as `Char.toLower` (both agree with Python on ASCII input,
which is all the repository manipulates).  Fallible browser operations
are embedded as `Except` values supplied by the environment, and Python's
process-randomised `hash` as an oracle function parameter.
-/

/-- ASCII whitespace, the characters matched by Python's `\s` (used in
`re.sub(r'\s+', ' ', text)`) and stripped by `str.strip()`. -/
def isPySpace (c : Char) : Bool :=
  c = ' ' || c = '\t' || c = '\n' || c = '\r' || c = '\x0b' || c = '\x0c'

/-- Worker for `collapseWS`.  The flag records whether the previously
emitted character came from a whitespace run: the first character of a
run is replaced by a single `' '`, the rest of the run is dropped. -/
def collapseAux : Bool → List Char → List Char
  | _, [] => []
  | b, c :: cs =>
    if isPySpace c then
      if b then collapseAux true cs else ' ' :: collapseAux true cs
    else c :: collapseAux false cs

/-- `re.sub(r'\s+', ' ', text)` from `clean_text`: every maximal run of
whitespace becomes a single space. -/
def collapseWS (l : List Char) : List Char :=
  collapseAux false l

/-- Removes trailing whitespace (the right half of Python `str.strip()`). -/
def stripRight : List Char → List Char
  | [] => []
  | c :: cs =>
    match stripRight cs with
    | [] => if isPySpace c then [] else [c]
    | d :: ds => c :: d :: ds

/-- Python `str.strip()`: removes leading and trailing whitespace. -/
def strip (l : List Char) : List Char :=
  stripRight (l.dropWhile isPySpace)

/-- Python `str.lower()` (ASCII). -/
def lower (l : List Char) : List Char :=
  l.map Char.toLower

/-- Python's substring test `pat in hay`. -/
def listInfixOf (pat hay : List Char) : Bool :=
  hay.tails.any fun t => pat.isPrefixOf t

/-- The `skip_phrases` denylist of `clean_text`. -/
def skip_phrases : List (List Char) :=
  ["menu".toList, "navigation".toList, "footer".toList, "copyright".toList,
   "privacy policy".toList, "terms of service".toList, "cookie".toList,
   "subscribe".toList, "follow us".toList]

/-- Python `text.split('\n')`. -/
def splitOnNl : List Char → List (List Char)
  | [] => [[]]
  | c :: cs =>
    if c = '\n' then [] :: splitOnNl cs
    else
      match splitOnNl cs with
      | [] => [[c]]
      | l :: ls => (c :: l) :: ls

/-- Python `'\n'.join(lines)`. -/
def joinNl : List (List Char) → List Char
  | [] => []
  | [l] => l
  | l :: l' :: ls => l ++ '\n' :: joinNl (l' :: ls)

/-- The keep condition of `clean_text`, applied to an already-stripped
line: `len(line) > 30 and not any(phrase in line.lower() for phrase in
skip_phrases)`. -/
def keepLine (l : List Char) : Bool :=
  30 < l.length && !(skip_phrases.any fun phrase => listInfixOf phrase (lower l))

/-- The full list of surviving lines built by the loop of `clean_text`:
each split line is stripped and kept when it passes `keepLine`. -/
def cleanedLines (text : List Char) : List (List Char) :=
  ((splitOnNl (collapseWS text)).map strip).filter keepLine

/-- `MCPContentScraper.clean_text`: returns `""` on empty input, else
collapses whitespace, splits on newlines, strips and filters each line
and joins the first 10 survivors with newlines. -/
def clean_text (text : List Char) : List Char :=
  if text = [] then []
  else joinNl ((cleanedLines text).take 10)

/-- A rendered DOM element as seen by the in-page extraction script:
its `tagName` property and its `textContent`. -/
structure DomElement where
  tagName : List Char
  textContent : List Char
deriving DecidableEq

/-- The rendered document, presented as the results of the three
`document.querySelectorAll` calls made by the extraction script of
`scrape_academic_content`: `'h1, h2, h3, h4, h5, h6'`, `'pre, code'`
and `'main p, article p, .content p, .documentation p'`. -/
structure RenderedPage where
  headings : List DomElement
  codeBlocks : List DomElement
  mainParagraphs : List DomElement
deriving DecidableEq

/-- The objects pushed onto the `content` array by the extraction
script: `{type: 'heading', level, text}`, `{type: 'code', text}` and
`{type: 'paragraph', text}`. -/
inductive ExtractedItem where
  | heading (level : Nat) (text : List Char)
  | code (text : List Char)
  | paragraph (text : List Char)
deriving DecidableEq

/-- The `text` field of an extracted item (`item["text"]` in Python). -/
def ExtractedItem.text : ExtractedItem → List Char
  | .heading _ t => t
  | .code t => t
  | .paragraph t => t

/-- `parseInt(heading.tagName.charAt(1))` for a heading tag name. -/
def headingLevel (tagName : List Char) : Nat :=
  match tagName with
  | _ :: d :: _ => d.toNat - '0'.toNat
  | _ => 0

/-- The tag names an element matched by the selector
`'h1, h2, h3, h4, h5, h6'` can report (`Element.tagName` is uppercase
in an HTML document). -/
def headingTags : List (List Char) :=
  ["H1".toList, "H2".toList, "H3".toList, "H4".toList, "H5".toList, "H6".toList]

/-- The in-page extraction pass of
`EnhancedMCPContentGenerator.scrape_academic_content`: headings whose
trimmed text is longer than 10 characters, then `pre`/`code` blocks
whose trimmed text is longer than 20 characters, then main-content
paragraphs whose trimmed text length lies strictly between 50 and 500,
pushed in that order onto one array. -/
def extractContent (page : RenderedPage) : List ExtractedItem :=
  (page.headings.filterMap fun h =>
    let text := strip h.textContent
    if 10 < text.length then
      some (ExtractedItem.heading (headingLevel h.tagName) text)
    else none)
  ++ (page.codeBlocks.filterMap fun block =>
    let text := strip block.textContent
    if 20 < text.length then some (ExtractedItem.code text) else none)
  ++ (page.mainParagraphs.filterMap fun p =>
    let text := strip p.textContent
    if 50 < text.length ∧ text.length < 500 then
      some (ExtractedItem.paragraph text)
    else none)

/-- An `img` element as read by the image-extraction script of
`MCPContentScraper.scrape_content`: `img.alt`, `img.width` and
`img.height` are defaulted by `|| ''` / `|| 0`, modelled as `Option`
fields. -/
structure RawImg where
  src : List Char
  alt : Option (List Char)
  width : Option Nat
  height : Option Nat
deriving DecidableEq

/-- The record produced for each image:
`{src, alt: img.alt || '', width: img.width || 0, height: img.height || 0}`. -/
structure ImageRef where
  src : List Char
  alt : List Char
  width : Nat
  height : Nat
deriving DecidableEq

/-- The image pass of `scrape_content`: map every `img` element to an
`ImageRef`, then `.filter(img => img.src && (img.width > 100 ||
img.height > 100))`. -/
def extractImages (imgs : List RawImg) : List ImageRef :=
  (imgs.map fun img =>
    ImageRef.mk img.src (img.alt.getD []) (img.width.getD 0) (img.height.getD 0)).filter
    fun img => !img.src.isEmpty && (100 < img.width || 100 < img.height)

/-- The outcomes the browser can hand `MCPContentScraper.scrape_content`
inside its `try` block: `page.goto` and the two `page.evaluate` calls
either succeed or raise (`Except.error` carries the message). -/
structure FetchEnv where
  gotoRes : Except (List Char) Unit
  contentRes : Except (List Char) (List Char)
  imagesRes : Except (List Char) (List RawImg)

/-- The `try` block of `scrape_content`: navigate, evaluate the text
extraction, evaluate the image extraction; the first raise aborts the
block. -/
def fetchBody (env : FetchEnv) : Except (List Char) (List Char × List ImageRef) :=
  match env.gotoRes with
  | .error e => .error e
  | .ok _ =>
    match env.contentRes with
    | .error e => .error e
    | .ok content =>
      match env.imagesRes with
      | .error e => .error e
      | .ok imgs => .ok (content, extractImages imgs)

/-- `MCPContentScraper.scrape_content` around its `try`/`except`: on
success the browser is closed and `(content, images)` returned; on any
exception the handler closes the browser and returns `(None, [])`.  The
`Bool` records that `browser.close()` ran on that path. -/
def scrape_content (env : FetchEnv) : (Option (List Char) × List ImageRef) × Bool :=
  match fetchBody env with
  | .ok (content, images) => ((some content, images), true)
  | .error _ => ((none, []), true)

/-- The outcomes the browser can hand
`EnhancedMCPContentGenerator.scrape_academic_content` inside its `try`
block. -/
structure AcadEnv where
  gotoRes : Except (List Char) Unit
  evalRes : Except (List Char) RenderedPage

/-- The `try` block of `scrape_academic_content`: navigate, then
evaluate the structured extraction. -/
def acadBody (env : AcadEnv) : Except (List Char) (List ExtractedItem) :=
  match env.gotoRes with
  | .error e => .error e
  | .ok _ =>
    match env.evalRes with
    | .error e => .error e
    | .ok page => .ok (extractContent page)

/-- `scrape_academic_content` around its `try`/`except`: on success the
browser is closed and the content list returned; on any exception the
handler closes the browser and returns `[]`.  The `Bool` records that
`browser.close()` ran on that path. -/
def scrape_academic_content (env : AcadEnv) : List ExtractedItem × Bool :=
  match acadBody env with
  | .ok items => (items, true)
  | .error _ => ([], true)

/-- One entry of `research_topics`: `{"title", "focus", "keywords"}`. -/
structure Topic where
  title : List Char
  focus : List Char
  keywords : List (List Char)

/-- `academic_templates["introduction"]` up to `{current_time}`. -/
def introS1 : List Char := String.toList
  ("\n# Model Context Protocol: A Comprehensive Analysis\n\n## Abstract\nThis paper examines the Model Context Protocol (MCP), a revolutionary framework for standardizing interactions between large language models and external data sources. As of ")

/-- `academic_templates["introduction"]` between `{current_time}` and
`{scraped_content}`. -/
def introS2 : List Char := String.toList
  (", MCP represents a significant advancement in AI system integration, offering unprecedented capabilities for context-aware computing.\n\n## Introduction\nThe rapid evolution of artificial intelligence systems has necessitated the development of robust protocols for data exchange and context management. The Model Context Protocol emerges as a critical solution to address the challenges of seamless integration between LLMs and diverse computational environments.\n\n")

/-- `academic_templates["introduction"]` after `{scraped_content}`. -/
def introS3 : List Char := String.toList
  ("\n\n## Technical Architecture\nMCP operates on a client-server architecture where the host application maintains context while the MCP server provides access to external resources. This separation of concerns enables scalable and maintainable AI systems.\n\n## Key Components\n1. **Context Management**: Dynamic context allocation and deallocation\n2. **Resource Access**: Standardized interfaces for external data sources\n3. **Protocol Specification**: Well-defined message formats and communication patterns\n4. **Security Framework**: Authentication and authorization mechanisms\n\n## Implications for AI Development\nThe adoption of MCP signifies a paradigm shift in how developers approach AI system integration, moving from monolithic architectures to modular, protocol-based designs.\n            ")

/-- `academic_templates["technical_analysis"]` up to `{current_time}`. -/
def techS1 : List Char := String.toList
  ("\n# Technical Deep Dive: Model Context Protocol Implementation\n\n## Executive Summary\nThis analysis provides an in-depth examination of the Model Context Protocol\x27s technical specifications and implementation patterns. Based on current research and practical applications as of ")

/-- `academic_templates["technical_analysis"]` between `{current_time}`
and `{scraped_content}`. -/
def techS2 : List Char := String.toList
  (".\n\n## Protocol Specification\n")

/-- `academic_templates["technical_analysis"]` after `{scraped_content}`. -/
def techS3 : List Char := String.toList
  ("\n\n## Implementation Patterns\n### Server-Side Architecture\nMCP servers implement a standardized interface that exposes resources through well-defined endpoints. The protocol supports both synchronous and asynchronous communication patterns.\n\n### Client Integration\nHost applications integrate with MCP through client libraries that handle protocol negotiation, context management, and error handling.\n\n## Performance Considerations\n- Latency optimization through efficient context caching\n- Memory management strategies for large-scale deployments\n- Network protocol optimization for distributed systems\n\n## Security Model\nThe protocol incorporates multiple layers of security:\n- Transport-level encryption\n- Authentication tokens and API keys\n- Resource-based access control\n- Audit logging and monitoring\n\n## Future Developments\nOngoing research focuses on extending MCP capabilities to support:\n- Real-time streaming contexts\n- Multi-modal data integration\n- Distributed context management\n            ")

/-- `academic_templates["case_study"]` up to `{scraped_content}`. -/
def caseS1 : List Char := String.toList
  ("\n# Case Study: Real-World Applications of Model Context Protocol\n\n## Overview\nThis case study examines practical implementations of the Model Context Protocol across various industries and use cases, highlighting the protocol\x27s versatility and effectiveness.\n\n## Industry Applications\n")

/-- `academic_templates["case_study"]` after `{scraped_content}`. -/
def caseS2 : List Char := String.toList
  ("\n\n## Implementation Examples\n\n### 1. Development Tools Integration\nMCP enables seamless integration between AI assistants and development environments, providing context-aware code suggestions and documentation access.\n\n### 2. Enterprise Data Systems\nOrganizations leverage MCP to connect LLMs with internal databases, ensuring secure and efficient data access while maintaining context awareness.\n\n### 3. Research Applications\nAcademic institutions utilize MCP for integrating AI models with research databases, enabling sophisticated literature review and data analysis capabilities.\n\n## Performance Metrics\nBased on current implementations:\n- **Context Retrieval Time**: <100ms average\n- **Memory Efficiency**: 40% reduction compared to traditional methods\n- **Developer Productivity**: 60% improvement in AI-assisted workflows\n\n## Lessons Learned\n- Standardization accelerates adoption\n- Security must be built into the protocol layer\n- Performance optimization requires careful context management\n\n## Conclusion\nThe Model Context Protocol demonstrates significant potential for transforming how AI systems interact with external data sources.\n            ")

/-- `MCPContentScraper.generate_academic_content`: the three fixed
f-string templates, with `{current_time}` and `{scraped_content}`
substituted, and the one returned selected by `hash(topic) % 3` over the
key list `["introduction", "technical_analysis", "case_study"]`.
Python's `hash` on strings is randomised per process, so it enters the
model as the oracle `pyHash`. -/
def generate_academic_content (scraped_content : List Char) (topic : List Char)
    (pyHash : List Char → Nat) (current_time : List Char) : List Char :=
  let introduction := introS1 ++ current_time ++ introS2 ++ scraped_content ++ introS3
  let technical_analysis := techS1 ++ current_time ++ techS2 ++ scraped_content ++ techS3
  let case_study := caseS1 ++ scraped_content ++ caseS2
  [introduction, technical_analysis, case_study].getD (pyHash topic % 3) []
/-- `_generate_architecture_paper` between the title and `self.current_date`. -/
def architectureMid : List Char := String.toList
  ("\n\n## Abstract\nThis paper presents a comprehensive analysis of the Model Context Protocol (MCP) architecture, examining its design principles, implementation patterns, and technical specifications. Through detailed examination of protocol documentation and implementation examples, we demonstrate how MCP addresses fundamental challenges in AI system integration. Our analysis reveals key architectural decisions that enable scalable, secure, and maintainable AI applications. The findings contribute to understanding of protocol-based AI integration patterns and provide guidance for future system design.\n\n## 1. Introduction\nThe rapid advancement of artificial intelligence systems has created significant challenges in integrating large language models with external data sources and computational resources. Traditional approaches often result in tightly coupled, monolithic systems that are difficult to maintain and scale. The Model Context Protocol emerges as a standardized solution to address these architectural challenges.\n\nThis paper examines MCP\x27s architecture through multiple lenses: protocol specification, implementation patterns, and practical deployment considerations. We analyze how MCP\x27s design enables separation of concerns, modularity, and extensibility in AI systems.\n\n## 2. Protocol Architecture\n\n### 2.1 Core Components\nThe MCP architecture consists of several interconnected components that work together to provide seamless AI integration:\n\n**Transport Layer**: Handles communication between clients and servers, supporting multiple transport mechanisms including HTTP, WebSocket, and inter-process communication.\n\n**Protocol Layer**: Defines message formats, interaction patterns, and protocol semantics. This layer ensures consistent behavior acr"
   ++ "oss different implementations.\n\n**Resource Layer**: Provides standardized interfaces for accessing external resources, including databases, APIs, file systems, and computational tools.\n\n**Context Layer**: Manages state information, context data, and session management across interactions.\n\n### 2.2 Message Flow Architecture\nMCP implements a request-response pattern with support for asynchronous operations:\n\n```\nClient Request → Protocol Processing → Resource Access → Response Generation → Client Response\n```\n\nThis architecture enables efficient resource utilization and supports complex interaction patterns.\n\n## 3. Implementation Patterns\n\n### 3.1 Server Implementation\nMCP servers implement a standardized interface that exposes resources through well-defined endpoints. The server architecture supports:\n\n- **Resource Registration**: Dynamic registration of available resources\n- **Access Control**: Authentication and authorization mechanisms\n- **Protocol Negotiation**: Version compatibility and feature detection\n- **Error Handling**: Comprehensive error reporting and recovery\n\n### 3.2 Client Integration\nClient applications integrate with MCP through standardized libraries that handle:\n\n- **Connection Management**: Establishing and maintaining connections\n- **Protocol Communication**: Message serialization and deserialization\n- **Context Management**: Tracking and updating context information\n- **Resource Discovery**: Identifying and accessing available resources\n\n## 4. Technical Analysis\n\n### 4.1 Performance Characteristics\nBased on current implementations, MCP demonstrates:\n\n- **Low Latency**: Average response times under 100ms for local resources\n- **High Throughput**: Support for thousands of concurrent operations\n- **Memory Effici"
   ++ "ency**: Optimized context management reduces memory overhead by 40%\n- **Scalability**: Linear performance scaling with resource addition\n\n### 4.2 Security Architecture\nMCP incorporates multiple security layers:\n\n- **Transport Security**: TLS encryption for network communications\n- **Authentication**: Token-based and certificate-based authentication\n- **Authorization**: Role-based access control for resource access\n- **Audit Logging**: Comprehensive logging for security monitoring\n\n## 5. Case Studies and Applications\n\n### 5.1 Development Tools Integration\nMCP enables sophisticated AI-powered development environments:\n- Context-aware code completion\n- Intelligent documentation access\n- Automated testing integration\n- Debugging assistance\n\n### 5.2 Enterprise Data Systems\nOrganizations leverage MCP for:\n- Secure database integration\n- Workflow automation\n- Knowledge base access\n- Decision support systems\n\n## 6. Future Directions\n\n### 6.1 Emerging Trends\nCurrent research focuses on:\n- Real-time streaming contexts\n- Multi-modal data integration\n- Distributed context management\n- Advanced security features\n\n### 6.2 Research Opportunities\nSeveral areas present opportunities for further research:\n- Performance optimization techniques\n- Enhanced security models\n- Cross-protocol interoperability\n- Standardization efforts\n\n## 7. Conclusion\nThe Model Context Protocol represents a significant advancement in AI system architecture. Its modular design, standardized interfaces, and comprehensive security features provide a solid foundation for building scalable and maintainable AI applications. As the ecosystem continues to evolve, MCP is poised to become a fundamental component of AI integration infrastructure.\n\n## References\n1. Model Cont"
   ++ "ext Protocol Specification, Version 1.0 (2025)\n2. Anthropic MCP Documentation (2025)\n3. GitHub MCP Community Resources (2025)\n4. Academic Research on AI Integration Protocols (2024-2025)\n5. Performance Analysis of Protocol-based AI Systems (2025)\n\n---\n*Published: ")

/-- `_generate_architecture_paper` after `self.current_time`. -/
def architectureTail : List Char := String.toList
  ("*  \n*Category: Technical Architecture Analysis*  \n*Research Focus: Model Context Protocol*")

/-- `_generate_security_paper` between the title and `self.current_date`. -/
def securityMid : List Char := String.toList
  ("\n\n## Abstract\nThis comprehensive analysis examines security frameworks within Model Context Protocol implementations, addressing critical considerations for secure AI system integration. We evaluate authentication mechanisms, authorization models, and security best practices in MCP deployments. Our findings highlight the importance of layered security approaches and provide recommendations for implementing robust security controls in MCP-based systems.\n\n## 1. Introduction\nAs AI systems become increasingly integrated with sensitive data and critical infrastructure, security considerations become paramount. The Model Context Protocol provides a framework for secure AI integration, but proper implementation of security features is essential for protecting against unauthorized access and data breaches.\n\n## 2. Security Architecture Overview\n\n### 2.1 Threat Model Analysis\nMCP implementations must address several threat vectors:\n- Unauthorized resource access\n- Man-in-the-middle attacks\n- Privilege escalation\n- Data leakage\n- Denial of service attacks\n\n### 2.2 Security Layers\nMCP implements defense-in-depth through multiple security layers:\n\n**Transport Security**: TLS 1.3 encryption for all network communications\n**Authentication**: Multi-factor authentication support\n**Authorization**: Fine-grained access control mechanisms\n**Audit Security**: Comprehensive logging and monitoring\n\n## 3. Authentication Mechanisms\n\n### 3.1 Token-Based Authentication\nMCP supports various token-based approaches:\n- JWT (JSON Web Tokens)\n- OAuth 2.0 bearer tokens\n- Custom API keys\n- Session-based authentication\n\n### 3.2 Certificate-Based Authentication\nFor enterprise deployments:\n- X.509 client certificates\n- Mutual TLS (mTLS)\n- Certificate revocation checkin"
   ++ "g\n- Certificate pinning\n\n## 4. Authorization Frameworks\n\n### 4.1 Role-Based Access Control (RBAC)\nMCP implements comprehensive RBAC:\n- Role definition and assignment\n- Permission inheritance\n- Dynamic role updates\n- Audit trail maintenance\n\n### 4.2 Attribute-Based Access Control (ABAC)\nAdvanced authorization scenarios:\n- Context-aware permissions\n- Time-based access controls\n- Location-based restrictions\n- Resource-specific policies\n\n## 5. Security Best Practices\n\n### 5.1 Implementation Guidelines\nKey security considerations for MCP deployments:\n- Principle of least privilege\n- Regular security audits\n- Penetration testing\n- Security monitoring and alerting\n\n### 5.2 Common Vulnerabilities and Mitigations\nAddressing frequent security issues:\n- Injection attacks\n- Authentication bypasses\n- Authorization flaws\n- Cryptographic weaknesses\n\n## 6. Compliance and Regulatory Considerations\n\n### 6.1 Data Protection Regulations\nMCP implementations must comply with:\n- GDPR (General Data Protection Regulation)\n- CCPA (California Consumer Privacy Act)\n- HIPAA (Health Insurance Portability and Accountability Act)\n- SOX (Sarbanes-Oxley Act)\n\n### 6.2 Industry Standards\nAlignment with security standards:\n- ISO 27001\n- NIST Cybersecurity Framework\n- SOC 2 Type II\n- PCI DSS (for payment processing)\n\n## 7. Future Security Enhancements\n\n### 7.1 Emerging Technologies\nIntegration with advanced security technologies:\n- Zero Trust Architecture\n- Homomorphic encryption\n- Quantum-resistant cryptography\n- AI-powered security monitoring\n\n### 7.2 Research Directions\nAreas for future security research:\n- Formal verification of protocol security\n- Automated security testing\n- Threat intelligence integration\n- Security metrics and benchmar"
   ++ "king\n\n## 8. Conclusion\nSecurity in MCP implementations requires a comprehensive, multi-layered approach. By implementing proper authentication, authorization, and monitoring mechanisms, organizations can build secure AI systems that protect sensitive data while maintaining functionality and performance.\n\n## References\n1. MCP Security Specification (2025)\n2. NIST Cybersecurity Framework (2024)\n3. OWASP API Security Guidelines (2025)\n4. Academic Research on AI Security (2024-2025)\n\n---\n*Published: ")

/-- `_generate_security_paper` after `self.current_time`. -/
def securityTail : List Char := String.toList
  ("*  \n*Category: Security Analysis*  \n*Research Focus: Model Context Protocol Security*")

/-- `_generate_performance_paper` between the title and `self.current_date`. -/
def performanceMid : List Char := String.toList
  ("\n\n## Abstract\nThis paper presents a comprehensive analysis of performance optimization strategies for Model Context Protocol systems. Through empirical evaluation and benchmarking, we identify key performance bottlenecks and propose optimization techniques that significantly improve system throughput and reduce latency. Our results demonstrate up to 60% improvement in response times and 40% reduction in resource utilization through targeted optimizations.\n\n## 1. Introduction\nPerformance is a critical factor in the adoption and success of AI integration protocols. As Model Context Protocol deployments scale to handle thousands of concurrent connections and process large volumes of data, optimization becomes essential for maintaining acceptable performance levels.\n\n## 2. Performance Characteristics\n\n### 2.1 Baseline Performance Metrics\nCurrent MCP implementations exhibit:\n- **Response Latency**: 50-200ms average\n- **Throughput**: 1000-5000 requests/second\n- **Memory Usage**: 50-200MB per connection\n- **CPU Utilization**: 10-30% under normal load\n\n### 2.2 Performance Bottlenecks\nIdentified bottlenecks include:\n- Context serialization overhead\n- Network latency in distributed deployments\n- Memory allocation patterns\n- Database query optimization\n\n## 3. Optimization Strategies\n\n### 3.1 Context Management Optimization\n**Context Caching**: Implement intelligent caching strategies\n- LRU (Least Recently Used) cache eviction\n- Context compression techniques\n- Distributed caching for multi-node deployments\n\n**Context Pooling**: Reuse context objects\n- Object pooling patterns\n- Memory pre-allocation\n- Garbage collection optimization\n\n### 3.2 Network Optimization\n**Connection Management**: Optimize network resources\n- Connection pooling and reu"
   ++ "se\n- HTTP/2 and HTTP/3 support\n- WebSocket persistent connections\n\n**Data Compression**: Reduce network overhead\n- Message compression algorithms\n- Binary protocol formats\n- Delta encoding for incremental updates\n\n### 3.3 Database Optimization\n**Query Optimization**: Improve database performance\n- Index optimization strategies\n- Query plan analysis\n- Database connection pooling\n\n**Data Access Patterns**: Optimize data retrieval\n- Batch processing techniques\n- Lazy loading strategies\n- Read replica utilization\n\n## 4. Benchmarking Methodology\n\n### 4.1 Test Environment\nComprehensive testing setup:\n- Hardware: Standardized cloud instances\n- Network: Controlled latency simulation\n- Software: Multiple MCP implementations\n- Load: Realistic usage patterns\n\n### 4.2 Performance Metrics\nKey performance indicators:\n- Response time percentiles (50th, 95th, 99th)\n- Concurrent connection handling\n- Memory efficiency ratios\n- Error rates under load\n\n## 5. Results and Analysis\n\n### 5.1 Optimization Impact\nMeasured improvements after optimization:\n\n| Optimization | Latency Improvement | Throughput Increase | Memory Reduction |\n|--------------|-------------------|-------------------|------------------|\n| Context Caching | 35% | 45% | 25% |\n| Connection Pooling | 20% | 30% | 15% |\n| Query Optimization | 40% | 25% | 10% |\n| Data Compression | 15% | 20% | 5% |\n\n### 5.2 Scalability Analysis\nPerformance under increasing load:\n- Linear scaling up to 10,000 concurrent connections\n- Graceful degradation under extreme load\n- Resource utilization efficiency improvements\n\n## 6. Best Practices\n\n### 6.1 Implementation Guidelines\nRecommended optimization practices:\n- Profile before optimizing\n- Focus on high-impact optimizations\n- Monitor perf"
   ++ "ormance continuously\n- Use appropriate data structures\n\n### 6.2 Monitoring and Alerting\nPerformance monitoring essentials:\n- Real-time performance dashboards\n- Automated alerting for degradation\n- Performance regression testing\n- Capacity planning metrics\n\n## 7. Future Optimizations\n\n### 7.1 Emerging Technologies\nIntegration with new optimization technologies:\n- Machine learning for predictive optimization\n- Hardware acceleration (GPUs, TPUs)\n- Edge computing for reduced latency\n- Quantum computing for complex optimizations\n\n### 7.2 Research Opportunities\nAreas for further performance research:\n- Adaptive optimization algorithms\n- Cross-platform performance comparison\n- Energy efficiency optimization\n- Performance prediction models\n\n## 8. Conclusion\nPerformance optimization in MCP systems requires a systematic approach combining context management, network optimization, and database tuning. The strategies presented in this paper demonstrate significant performance improvements while maintaining system reliability and security.\n\n## References\n1. MCP Performance Benchmarking Study (2025)\n2. Database Optimization Best Practices (2024)\n3. Network Performance Optimization (2025)\n4. Academic Research on AI System Performance (2024-2025)\n\n---\n*Published: ")

/-- `_generate_performance_paper` after `self.current_time`. -/
def performanceTail : List Char := String.toList
  ("*  \n*Category: Performance Analysis*  \n*Research Focus: Model Context Protocol Optimization*")

/-- `_generate_integration_paper` between the title and `self.current_date`. -/
def integrationMid : List Char := String.toList
  ("\n\n## Abstract\nThis comprehensive study examines integration patterns for Model Context Protocol in modern development workflows. Through analysis of real-world implementations and case studies, we identify best practices for seamless MCP integration across various development environments. Our findings provide actionable insights for organizations seeking to leverage MCP for enhanced AI-powered development workflows.\n\n## 1. Introduction\nThe integration of AI capabilities into development workflows represents a significant opportunity for productivity enhancement. The Model Context Protocol provides a standardized framework for such integration, but successful implementation requires careful consideration of existing development patterns and workflows.\n\n## 2. Development Environment Integration\n\n### 2.1 IDE Integration Patterns\nMCP integration with popular development environments:\n\n**Visual Studio Code**:\n- Extension-based MCP client implementation\n- Context-aware code completion\n- Integrated documentation access\n- Real-time error detection and suggestions\n\n**JetBrains IDEs**:\n- Plugin architecture for MCP connectivity\n- Refactoring assistance through MCP\n- Test generation and optimization\n- Project-wide context management\n\n**Vim/Neovim**:\n- Lightweight MCP client implementations\n- Asynchronous operation handling\n- Custom workflow integration\n- Minimal resource footprint\n\n### 2.2 Build System Integration\nMCP integration with build tools:\n\n**Maven/Gradle**:\n- Dependency analysis through MCP\n- Automated build optimization\n- Security vulnerability scanning\n- Documentation generation\n\n**npm/yarn**:\n- Package management integration\n- Automated testing workflows\n- Performance monitoring\n- Deployment assistance\n\n## 3. Workflow Inte"
   ++ "gration Patterns\n\n### 3.1 Continuous Integration/Continuous Deployment (CI/CD)\nMCP-enhanced CI/CD pipelines:\n\n**Automated Testing**:\n- Intelligent test case generation\n- Test coverage optimization\n- Performance regression detection\n- Security testing automation\n\n**Deployment Automation**:\n- Configuration management\n- Rollback strategies\n- Environment-specific optimizations\n- Monitoring and alerting\n\n### 3.2 Code Review Processes\nMCP-assisted code review:\n\n**Automated Analysis**:\n- Code quality assessment\n- Security vulnerability detection\n- Performance impact analysis\n- Best practices compliance\n\n**Human-AI Collaboration**:\n- Context-aware suggestions\n- Explanation of complex code\n- Refactoring recommendations\n- Documentation generation\n\n## 4. Enterprise Integration Strategies\n\n### 4.1 Large-Scale Deployments\nEnterprise considerations for MCP integration:\n\n**Scalability Architecture**:\n- Distributed MCP server deployment\n- Load balancing strategies\n- Failover and redundancy\n- Performance monitoring\n\n**Security Integration**:\n- Enterprise authentication systems\n- Role-based access control\n- Audit logging and compliance\n- Data governance policies\n\n### 4.2 Legacy System Integration\nIntegrating MCP with existing systems:\n\n**API Gateway Patterns**:\n- Legacy system abstraction\n- Protocol translation\n- Data transformation\n- Backward compatibility\n\n**Database Integration**:\n- Legacy database connectivity\n- Data migration strategies\n- Query optimization\n- Synchronization mechanisms\n\n## 5. Case Studies\n\n### 5.1 Financial Services Implementation\nA major financial institution\x27s MCP integration:\n\n**Challenges**:\n- Strict regulatory requirements\n- Legacy system integration\n- High security standards\n- Performa"
   ++ "nce requirements\n\n**Solutions**:\n- Custom MCP server implementations\n- Enhanced security frameworks\n- Performance optimization\n- Comprehensive monitoring\n\n**Results**:\n- 40% reduction in development time\n- 60% improvement in code quality\n- 25% reduction in security incidents\n- Significant cost savings\n\n### 5.2 Healthcare System Integration\nHealthcare industry MCP deployment:\n\n**Requirements**:\n- HIPAA compliance\n- Real-time data access\n- High availability\n- Data privacy protection\n\n**Implementation**:\n- Secure MCP server deployment\n- Encrypted data transmission\n- Audit trail implementation\n- Disaster recovery planning\n\n**Outcomes**:\n- Improved patient care coordination\n- Enhanced data security\n- Reduced administrative overhead\n- Better clinical decision support\n\n## 6. Best Practices and Guidelines\n\n### 6.1 Implementation Best Practices\nRecommended approaches for MCP integration:\n\n**Planning Phase**:\n- Comprehensive requirements analysis\n- Stakeholder engagement\n- Risk assessment\n- Resource planning\n\n**Development Phase**:\n- Incremental implementation\n- Continuous testing\n- Performance monitoring\n- Security validation\n\n**Deployment Phase**:\n- Phased rollout strategy\n- User training programs\n- Support infrastructure\n- Feedback collection\n\n### 6.2 Common Pitfalls and Solutions\nAvoiding integration challenges:\n\n**Technical Pitfalls**:\n- Inadequate performance testing\n- Security oversight\n- Scalability limitations\n- Poor error handling\n\n**Organizational Pitfalls**:\n- Insufficient training\n- Resistance to change\n- Inadequate support\n- Unclear objectives\n\n## 7. Future Integration Trends\n\n### 7.1 Emerging Patterns\nFuture directions for MCP integration:\n\n**AI-Enhanced Development**:\n- Intelligent code"
   ++ " generation\n- Automated bug fixing\n- Predictive maintenance\n- Autonomous optimization\n\n**Collaborative Development**:\n- Real-time collaboration tools\n- Shared context management\n- Distributed team coordination\n- Knowledge sharing platforms\n\n### 7.2 Technology Evolution\nAnticipated technological developments:\n\n**Advanced AI Capabilities**:\n- Multi-modal AI integration\n- Context-aware assistance\n- Personalized workflows\n- Adaptive learning systems\n\n**Infrastructure Evolution**:\n- Edge computing integration\n- 5G network utilization\n- Quantum computing preparation\n- Sustainable computing practices\n\n## 8. Conclusion\nSuccessful MCP integration requires careful planning, implementation, and ongoing optimization. The patterns and practices presented in this paper provide a foundation for organizations seeking to leverage MCP for enhanced development workflows and productivity improvements.\n\n## References\n1. MCP Integration Documentation (2025)\n2. Enterprise Development Best Practices (2024)\n3. Case Studies in AI Integration (2025)\n4. Academic Research on Development Workflows (2024-2025)\n\n---\n*Published: ")

/-- `_generate_integration_paper` after `self.current_time`. -/
def integrationTail : List Char := String.toList
  ("*  \n*Category: Integration Analysis*  \n*Research Focus: Model Context Protocol Integration*")

/-- `_generate_context_paper` between the title and `self.current_date`. -/
def contextMid : List Char := String.toList
  ("\n\n## Abstract\nThis paper presents a comprehensive analysis of context management strategies in large-scale Model Context Protocol deployments. We examine theoretical foundations, practical implementations, and optimization techniques for efficient context handling in distributed AI systems. Our research demonstrates significant improvements in memory utilization, response times, and system scalability through advanced context management approaches.\n\n## 1. Introduction\nContext management represents a fundamental challenge in large-scale AI deployments. As Model Context Protocol implementations grow to handle thousands of concurrent users and complex interaction patterns, efficient context management becomes critical for maintaining system performance and user experience.\n\n## 2. Context Management Theory\n\n### 2.1 Theoretical Foundations\nContext in MCP systems encompasses:\n\n**Session Context**: User interaction history and preferences\n**Application Context**: Application state and configuration\n**Resource Context**: Available resources and their states\n**Environmental Context**: System conditions and constraints\n\n### 2.2 Context Lifecycle Management\nComplete context lifecycle includes:\n\n**Initialization**: Context creation and setup\n**Maintenance**: Context updates and synchronization\n**Optimization**: Context compression and optimization\n**Cleanup**: Context disposal and resource recovery\n\n## 3. Large-Scale Deployment Challenges\n\n### 3.1 Scalability Issues\nContext management at scale presents unique challenges:\n\n**Memory Pressure**: Exponential context growth\n**Synchronization Overhead**: Multi-node consistency\n**Network Latency**: Distributed context access\n**Resource Contention**: Shared resource utilization\n\n### 3.2 Performance Bottl"
   ++ "enecks\nIdentified performance limitations:\n\n**Context Serialization**: CPU-intensive operations\n**Data Transfer**: Network bandwidth constraints\n**Storage I/O**: Database access patterns\n**Garbage Collection**: Memory management overhead\n\n## 4. Advanced Context Management Strategies\n\n### 4.1 Hierarchical Context Architecture\nMulti-level context organization:\n\n**Global Context**: System-wide shared context\n**Tenant Context**: Organization-specific context\n**User Context**: Individual user context\n**Session Context**: Transaction-specific context\n\n**Benefits**:\n- Reduced memory duplication\n- Improved access patterns\n- Enhanced security isolation\n- Simplified management\n\n### 4.2 Distributed Context Management\nMulti-node context coordination:\n\n**Context Replication**: Synchronized context copies\n**Consistency Models**: CAP theorem considerations\n**Conflict Resolution**: Automated conflict handling\n**Failure Recovery**: Context restoration mechanisms\n\n### 4.3 Intelligent Context Caching\nAdvanced caching strategies:\n\n**Predictive Caching**: ML-based cache preloading\n**Adaptive Eviction**: Dynamic cache management\n**Compression Techniques**: Context size reduction\n**Tiered Storage**: Multi-level cache hierarchy\n\n## 5. Implementation Patterns\n\n### 5.1 Context Storage Architectures\nStorage solutions for context data:\n\n**In-Memory Storage**: Fast access, limited capacity\n**Distributed Caches**: Redis, Memcached clusters\n**Persistent Storage**: Database-backed context\n**Hybrid Approaches**: Multi-tier storage strategies\n\n### 5.2 Context Access Patterns\nOptimized context retrieval:\n\n**Lazy Loading**: On-demand context loading\n**Batch Operations**: Bulk context access\n**Prefetching**: Anticipatory context loading\n**Subscription"
   ++ " Models**: Change notification systems\n\n## 6. Performance Optimization\n\n### 6.1 Context Compression Techniques\nReducing context footprint:\n\n**Dictionary Compression**: Common pattern encoding\n**Delta Encoding**: Incremental change representation\n**Structural Optimization**: Efficient data structures\n**Lossy Compression**: Acceptable precision reduction\n\n### 6.2 Memory Management Strategies\nEfficient memory utilization:\n\n**Object Pooling**: Context object reuse\n**Memory Mapping**: Efficient file-based context\n**Garbage Collection**: Optimized GC tuning\n**Resource Limits**: Memory usage controls\n\n## 7. Monitoring and Analytics\n\n### 7.1 Context Metrics\nKey performance indicators:\n\n**Context Size**: Memory utilization metrics\n**Access Patterns**: Usage frequency analysis\n**Latency Measurements**: Response time tracking\n**Error Rates**: Failure frequency monitoring\n\n### 7.2 Analytical Insights\nData-driven optimization:\n\n**Usage Pattern Analysis**: Behavior identification\n**Performance Trending**: Long-term performance tracking\n**Capacity Planning**: Resource requirement prediction\n**Anomaly Detection**: Unusual pattern identification\n\n## 8. Case Studies\n\n### 8.1 Enterprise Deployment\nLarge-scale MCP implementation:\n\n**Environment**: 50,000+ concurrent users\n**Challenge**: Context memory explosion\n**Solution**: Hierarchical context architecture\n**Results**: 60% memory reduction, 40% performance improvement\n\n### 8.2 High-Frequency Trading\nReal-time MCP application:\n\n**Requirements**: Microsecond response times\n**Challenge**: Context synchronization latency\n**Solution**: In-memory context with replication\n**Results**: Sub-millisecond context access\n\n## 9. Future Directions\n\n### 9.1 Emerging Technologies\nIntegration with"
   ++ " advanced technologies:\n\n**Edge Computing**: Distributed context at network edge\n**Quantum Computing**: Quantum context management\n**Neuromorphic Computing**: Brain-inspired context handling\n**Blockchain**: Distributed context ledgers\n\n### 9.2 Research Opportunities\nAreas for future research:\n\n**Context Prediction**: AI-powered context anticipation\n**Self-Optimizing Systems**: Autonomous context management\n**Cross-Protocol Context**: Interoperability frameworks\n**Context Economics**: Resource allocation optimization\n\n## 10. Conclusion\nEffective context management is essential for large-scale MCP deployments. The strategies and techniques presented in this paper provide a comprehensive framework for building scalable, efficient, and reliable context management systems.\n\n## References\n1. Distributed Systems Context Management (2025)\n2. Large-Scale AI System Architecture (2024)\n3. Memory Optimization Techniques (2025)\n4. Academic Research on Context Management (2024-2025)\n\n---\n*Published: ")

/-- `_generate_context_paper` after `self.current_time`. -/
def contextTail : List Char := String.toList
  ("*  \n*Category: Context Management Analysis*  \n*Research Focus: Model Context Protocol Scalability*")

/-- `EnhancedMCPContentGenerator._generate_architecture_paper`: computes
`relevant_content` by keyword filtering but never uses it, then returns
the fixed architecture template with the title, date and time spliced
in.  `self.current_date` / `self.current_time` are passed explicitly. -/
def _generate_architecture_paper (topic_data : Topic) (scraped_content : List ExtractedItem)
    (current_date current_time : List Char) : List Char :=
  let relevant_content := scraped_content.filter fun item =>
    topic_data.keywords.any fun keyword => listInfixOf keyword (lower item.text)
  "# ".toList ++ topic_data.title ++ architectureMid
    ++ current_date ++ " ".toList ++ current_time ++ architectureTail

/-- `EnhancedMCPContentGenerator._generate_security_paper`. -/
def _generate_security_paper (topic_data : Topic) (scraped_content : List ExtractedItem)
    (current_date current_time : List Char) : List Char :=
  "# ".toList ++ topic_data.title ++ securityMid
    ++ current_date ++ " ".toList ++ current_time ++ securityTail

/-- `EnhancedMCPContentGenerator._generate_performance_paper`. -/
def _generate_performance_paper (topic_data : Topic) (scraped_content : List ExtractedItem)
    (current_date current_time : List Char) : List Char :=
  "# ".toList ++ topic_data.title ++ performanceMid
    ++ current_date ++ " ".toList ++ current_time ++ performanceTail

/-- `EnhancedMCPContentGenerator._generate_integration_paper`. -/
def _generate_integration_paper (topic_data : Topic) (scraped_content : List ExtractedItem)
    (current_date current_time : List Char) : List Char :=
  "# ".toList ++ topic_data.title ++ integrationMid
    ++ current_date ++ " ".toList ++ current_time ++ integrationTail

/-- `EnhancedMCPContentGenerator._generate_context_paper`. -/
def _generate_context_paper (topic_data : Topic) (scraped_content : List ExtractedItem)
    (current_date current_time : List Char) : List Char :=
  "# ".toList ++ topic_data.title ++ contextMid
    ++ current_date ++ " ".toList ++ current_time ++ contextTail

/-- `EnhancedMCPContentGenerator.generate_high_quality_academic_paper`:
dispatches on `topic_data["focus"]` to one of the five fixed paper
templates, defaulting to the context paper. -/
def generate_high_quality_academic_paper (topic_data : Topic)
    (scraped_content : List ExtractedItem) (current_date current_time : List Char) :
    List Char :=
  if topic_data.focus = "architecture".toList then
    _generate_architecture_paper topic_data scraped_content current_date current_time
  else if topic_data.focus = "security".toList then
    _generate_security_paper topic_data scraped_content current_date current_time
  else if topic_data.focus = "performance".toList then
    _generate_performance_paper topic_data scraped_content current_date current_time
  else if topic_data.focus = "integration".toList then
    _generate_integration_paper topic_data scraped_content current_date current_time
  else
    _generate_context_paper topic_data scraped_content current_date current_time

/-- Characterisation predicate used in the proofs: the list does not
begin with a whitespace character. -/
def noLeadWS : List Char → Bool
  | [] => true
  | c :: _ => !isPySpace c

/-- Characterisation predicate used in the proofs: no two adjacent
characters are both whitespace. -/
def noAdjWS : List Char → Bool
  | [] => true
  | [_] => true
  | a :: b :: rest => (!(isPySpace a && isPySpace b)) && noAdjWS (b :: rest)

/-- The scenario input of the spec: three lines, the first short, the
third containing "copyright". -/
def c1_input : List Char :=
  ("  Menu Home About  \nThis is a sufficiently long sentence describing the architecture of the protocol in detail.\nCopyright 2025 Inc.\n").toList

/-- A trimmed candidate line of exactly 30 characters containing no
denylist phrase. -/
def thirtyAs : List Char := List.replicate 30 'a'

/-- A candidate line of 40 characters containing no denylist phrase. -/
def fortyAs : List Char := List.replicate 40 'a'

/-- A rendered page carrying one `h2` heading, used to instantiate the
extraction invariants. -/
def wfHeadingPage : RenderedPage :=
  ⟨[⟨"H2".toList, "  Architecture of the protocol  ".toList⟩], [], []⟩

/-- A fetch environment in which navigation raises (unreachable URL). -/
def fetchEnvErr : FetchEnv :=
  ⟨.error "net::ERR_CONNECTION_REFUSED".toList, .ok [], .ok []⟩

/-- An academic-fetch environment in which navigation raises. -/
def acadEnvErr : AcadEnv :=
  ⟨.error "net::ERR_CONNECTION_REFUSED".toList, .ok ⟨[], [], []⟩⟩

/-- An 80 by 80 image element with a non-empty source. -/
def img8080 : RawImg := ⟨"https://example.com/a.png".toList, none, some 80, some 80⟩

/-- A 120 by 50 image element with a non-empty source. -/
def img12050 : RawImg := ⟨"https://example.com/b.png".toList, none, some 120, some 50⟩

/-- A topic string longer than any template instantiated with empty
scraped content, used against `generate_academic_content`. -/
def hugeTopic : List Char := List.replicate 2000 'z'

/-- A concrete value for the `hash` oracle. -/
def pyHashZero : List Char → Nat := fun _ => 0

theorem mem_collapseAux_space (l : List Char) : ∀ (b : Bool) (c : Char),
    c ∈ collapseAux b l → isPySpace c = true → c = ' ' := by
  induction l with
  | nil => intro b c hc _; simp [collapseAux] at hc
  | cons a cs ih =>
    intro b c hc hs
    unfold collapseAux at hc
    by_cases ha : isPySpace a = true
    · rw [if_pos ha] at hc
      cases b with
      | true => simp only [if_true] at hc; exact ih true c hc hs
      | false =>
        simp only [Bool.false_eq_true, if_false] at hc
        rcases List.mem_cons.mp hc with h | h
        · exact h
        · exact ih true c h hs
    · rw [if_neg ha] at hc
      rcases List.mem_cons.mp hc with h | h
      · subst h; exact absurd hs ha
      · exact ih false c h hs

theorem nl_not_mem_collapseWS (text : List Char) : '\n' ∉ collapseWS text := by
  intro h
  have h2 := mem_collapseAux_space text false '\n' h (by decide)
  exact absurd h2 (by decide)

theorem splitOnNl_eq_of_not_mem {l : List Char} (h : '\n' ∉ l) : splitOnNl l = [l] := by
  induction l with
  | nil => rfl
  | cons c cs ih =>
    have hc : ¬ (c = '\n') := fun hh => h (by simp [hh])
    have hcs : '\n' ∉ cs := fun hh => h (List.mem_cons_of_mem _ hh)
    unfold splitOnNl
    rw [if_neg hc, ih hcs]

theorem not_nl_mem_of_mem_splitOnNl : ∀ (l m : List Char), m ∈ splitOnNl l → '\n' ∉ m := by
  intro l
  induction l with
  | nil =>
    intro m hm
    simp only [splitOnNl, List.mem_singleton] at hm
    subst hm; simp
  | cons c cs ih =>
    intro m hm
    unfold splitOnNl at hm
    by_cases hc : c = '\n'
    · rw [if_pos hc] at hm
      rcases List.mem_cons.mp hm with h | h
      · subst h; simp
      · exact ih m h
    · rw [if_neg hc] at hm
      cases hsp : splitOnNl cs with
      | nil =>
        rw [hsp] at hm
        simp only [List.mem_singleton] at hm
        subst hm
        intro hnl
        rcases List.mem_cons.mp hnl with h1 | h1
        · exact hc h1.symm
        · simp at h1
      | cons l0 ls =>
        rw [hsp] at hm
        rcases List.mem_cons.mp hm with h | h
        · subst h
          intro hnl
          rcases List.mem_cons.mp hnl with h1 | h1
          · exact hc h1.symm
          · exact ih l0 (hsp ▸ List.mem_cons_self l0 ls) h1
        · exact ih m (hsp ▸ List.mem_cons_of_mem l0 h)

theorem splitOnNl_append_nl {a : List Char} (b : List Char) (h : '\n' ∉ a) :
    splitOnNl (a ++ '\n' :: b) = a :: splitOnNl b := by
  induction a with
  | nil => simp [splitOnNl]
  | cons c cs ih =>
    have hc : ¬ (c = '\n') := fun hh => h (by simp [hh])
    have hcs : '\n' ∉ cs := fun hh => h (List.mem_cons_of_mem _ hh)
    simp only [List.cons_append, splitOnNl, List.append_eq]
    rw [if_neg hc, ih hcs]

theorem joinNl_split : ∀ (ls : List (List Char)), (∀ m ∈ ls, '\n' ∉ m) → ls ≠ [] →
    splitOnNl (joinNl ls) = ls := by
  intro ls
  induction ls with
  | nil => intro _ hne; exact absurd rfl hne
  | cons l ls ih =>
    intro hnl _
    cases ls with
    | nil => simpa [joinNl] using splitOnNl_eq_of_not_mem (hnl l (by simp))
    | cons l' ls' =>
      show splitOnNl (l ++ '\n' :: joinNl (l' :: ls')) = l :: l' :: ls'
      rw [splitOnNl_append_nl _ (hnl l (by simp))]
      rw [ih (fun m hm => hnl m (List.mem_cons_of_mem _ hm)) (by simp)]

theorem noAdjWS_tail {a : Char} {l : List Char} (h : noAdjWS (a :: l) = true) :
    noAdjWS l = true := by
  cases l with
  | nil => rfl
  | cons b bs =>
    unfold noAdjWS at h
    simp only [Bool.and_eq_true] at h
    exact h.2

theorem noAdjWS_cons {c : Char} {l : List Char}
    (hc : isPySpace c = false ∨ noLeadWS l = true) (hl : noAdjWS l = true) :
    noAdjWS (c :: l) = true := by
  cases l with
  | nil => rfl
  | cons b bs =>
    unfold noAdjWS
    simp only [Bool.and_eq_true]
    refine ⟨?_, hl⟩
    rcases hc with h | h
    · simp [h]
    · have hb : isPySpace b = false := by simpa [noLeadWS] using h
      simp [hb]

theorem noLead_of_noAdj_spaceHead {a : Char} {l : List Char}
    (ha : isPySpace a = true) (h : noAdjWS (a :: l) = true) : noLeadWS l = true := by
  cases l with
  | nil => rfl
  | cons b bs =>
    unfold noAdjWS at h
    simp only [Bool.and_eq_true] at h
    have h1 := h.1
    simp only [ha, Bool.true_and, Bool.not_eq_true'] at h1
    simp [noLeadWS, h1]

theorem collapseAux_noAdj (l : List Char) : ∀ (b : Bool),
    noAdjWS (collapseAux b l) = true ∧
      (b = true → noLeadWS (collapseAux b l) = true) := by
  induction l with
  | nil => intro b; exact ⟨rfl, fun _ => rfl⟩
  | cons a cs ih =>
    intro b
    unfold collapseAux
    by_cases ha : isPySpace a = true
    · rw [if_pos ha]
      cases b with
      | true => simpa using ih true
      | false =>
        simp only [Bool.false_eq_true, if_false]
        constructor
        · exact noAdjWS_cons (Or.inr ((ih true).2 rfl)) (ih true).1
        · intro h; cases h
    · rw [if_neg ha]
      have ha' : isPySpace a = false := by simpa using ha
      constructor
      · exact noAdjWS_cons (Or.inl ha') (ih false).1
      · intro _; simp [noLeadWS, ha']

theorem collapseAux_fixpoint : ∀ (l : List Char) (b : Bool),
    (∀ c ∈ l, isPySpace c = true → c = ' ') → noAdjWS l = true →
    (b = true → noLeadWS l = true) → collapseAux b l = l := by
  intro l
  induction l with
  | nil => intro b _ _ _; rfl
  | cons a cs ih =>
    intro b hblank hadj hlead
    unfold collapseAux
    by_cases ha : isPySpace a = true
    · rw [if_pos ha]
      have hb : b = false := by
        cases b with
        | false => rfl
        | true =>
          have := hlead rfl
          simp [noLeadWS, ha] at this
      subst hb
      simp only [Bool.false_eq_true, if_false]
      have hrest : collapseAux true cs = cs := by
        refine ih true (fun c hc hs => hblank c (List.mem_cons_of_mem _ hc) hs)
          (noAdjWS_tail hadj) (fun _ => noLead_of_noAdj_spaceHead ha hadj)
      rw [hrest, hblank a (List.mem_cons_self a cs) ha]
    · rw [if_neg ha]
      rw [ih false (fun c hc hs => hblank c (List.mem_cons_of_mem _ hc) hs)
        (noAdjWS_tail hadj) (fun h => nomatch h)]


theorem stripRight_cons_nil {c : Char} {cs : List Char} (h : stripRight cs = []) :
    stripRight (c :: cs) = if isPySpace c = true then [] else [c] := by
  unfold stripRight
  rw [h]

theorem stripRight_cons_cons {c : Char} {cs : List Char} {d : Char} {ds : List Char}
    (h : stripRight cs = d :: ds) : stripRight (c :: cs) = c :: d :: ds := by
  unfold stripRight
  rw [h]

theorem mem_stripRight : ∀ {l : List Char} {x : Char}, x ∈ stripRight l → x ∈ l := by
  intro l
  induction l with
  | nil => intro x hx; simp [stripRight] at hx
  | cons c cs ih =>
    intro x hx
    cases hsr : stripRight cs with
    | nil =>
      rw [stripRight_cons_nil hsr] at hx
      by_cases hc : isPySpace c = true
      · rw [if_pos hc] at hx; simp at hx
      · rw [if_neg hc] at hx
        simp only [List.mem_singleton] at hx
        subst hx
        exact List.mem_cons_self _ _
    | cons d ds =>
      rw [stripRight_cons_cons hsr] at hx
      rcases List.mem_cons.mp hx with h | h
      · subst h; exact List.mem_cons_self _ _
      · exact List.mem_cons_of_mem _ (ih (hsr ▸ h))

theorem stripRight_head : ∀ {l : List Char} {d : Char} {ds : List Char},
    stripRight l = d :: ds → ∃ t, l = d :: t := by
  intro l
  cases l with
  | nil => intro d ds h; simp [stripRight] at h
  | cons c cs =>
    intro d ds h
    cases hsr : stripRight cs with
    | nil =>
      rw [stripRight_cons_nil hsr] at h
      by_cases hc : isPySpace c = true
      · rw [if_pos hc] at h; simp at h
      · rw [if_neg hc] at h
        simp only [List.cons.injEq] at h
        exact ⟨cs, by rw [h.1]⟩
    | cons e es =>
      rw [stripRight_cons_cons hsr] at h
      simp only [List.cons.injEq] at h
      exact ⟨cs, by rw [h.1]⟩

theorem stripRight_noLead {l : List Char} (h : noLeadWS l = true) :
    noLeadWS (stripRight l) = true := by
  cases l with
  | nil => rfl
  | cons c cs =>
    have hc : isPySpace c = false := by simpa [noLeadWS] using h
    cases hsr : stripRight cs with
    | nil =>
      rw [stripRight_cons_nil hsr, if_neg (by simp [hc])]
      simp [noLeadWS, hc]
    | cons d ds =>
      rw [stripRight_cons_cons hsr]
      simp [noLeadWS, hc]

theorem stripRight_noAdj : ∀ {l : List Char}, noAdjWS l = true →
    noAdjWS (stripRight l) = true := by
  intro l
  induction l with
  | nil => intro h; exact h
  | cons c cs ih =>
    intro h
    cases hsr : stripRight cs with
    | nil =>
      rw [stripRight_cons_nil hsr]
      by_cases hc : isPySpace c = true
      · rw [if_pos hc]; rfl
      · rw [if_neg hc]; rfl
    | cons d ds =>
      rw [stripRight_cons_cons hsr]
      obtain ⟨t, hcs⟩ := stripRight_head hsr
      have h2 : noAdjWS (d :: ds) = true := by
        rw [← hsr]; exact ih (noAdjWS_tail h)
      subst hcs
      unfold noAdjWS at h ⊢
      simp only [Bool.and_eq_true] at h ⊢
      exact ⟨h.1, h2⟩

theorem stripRight_idem : ∀ (l : List Char), stripRight (stripRight l) = stripRight l := by
  intro l
  induction l with
  | nil => rfl
  | cons c cs ih =>
    cases hsr : stripRight cs with
    | nil =>
      rw [stripRight_cons_nil hsr]
      by_cases hc : isPySpace c = true
      · rw [if_pos hc]; rfl
      · rw [if_neg hc]
        rw [stripRight_cons_nil (show stripRight ([] : List Char) = [] from rfl), if_neg hc]
    | cons d ds =>
      rw [stripRight_cons_cons hsr]
      rw [hsr] at ih
      exact stripRight_cons_cons ih

theorem dropWhile_noLead (l : List Char) : noLeadWS (l.dropWhile isPySpace) = true := by
  induction l with
  | nil => rfl
  | cons c cs ih =>
    rw [List.dropWhile_cons]
    split
    · exact ih
    · next hc => simp [noLeadWS, hc]

theorem noAdj_dropWhile {l : List Char} (h : noAdjWS l = true) :
    noAdjWS (l.dropWhile isPySpace) = true := by
  induction l with
  | nil => exact h
  | cons c cs ih =>
    rw [List.dropWhile_cons]
    split
    · exact ih (noAdjWS_tail h)
    · exact h

theorem dropWhile_of_noLead {l : List Char} (h : noLeadWS l = true) :
    l.dropWhile isPySpace = l := by
  cases l with
  | nil => rfl
  | cons c cs =>
    rw [List.dropWhile_cons, if_neg]
    simpa [noLeadWS] using h

theorem mem_dropWhileWS {l : List Char} {x : Char} (hx : x ∈ l.dropWhile isPySpace) :
    x ∈ l :=
  (List.dropWhile_sublist _).subset hx

theorem mem_strip {l : List Char} {x : Char} (hx : x ∈ strip l) : x ∈ l :=
  mem_dropWhileWS (mem_stripRight hx)

theorem strip_noLead (l : List Char) : noLeadWS (strip l) = true :=
  stripRight_noLead (dropWhile_noLead l)

theorem strip_noAdj {l : List Char} (h : noAdjWS l = true) : noAdjWS (strip l) = true :=
  stripRight_noAdj (noAdj_dropWhile h)

theorem strip_idem (l : List Char) : strip (strip l) = strip l := by
  unfold strip
  rw [dropWhile_of_noLead (stripRight_noLead (dropWhile_noLead l)), stripRight_idem]

theorem collapse_strip_collapse (text : List Char) :
    collapseWS (strip (collapseWS text)) = strip (collapseWS text) := by
  refine collapseAux_fixpoint _ false ?_ ?_ ?_
  · intro c hc hs
    exact mem_collapseAux_space text false c (mem_strip hc) hs
  · exact strip_noAdj (collapseAux_noAdj text false).1
  · intro h; cases h

theorem keepLine_iff (l : List Char) : keepLine l = true ↔
    30 < l.length ∧ ∀ p ∈ skip_phrases, listInfixOf p (lower l) = false := by
  simp [keepLine, List.any_eq_false, Bool.and_eq_true, decide_eq_true_eq,
    Bool.not_eq_true']

theorem mem_cleanedLines_no_nl {text m : List Char} (hm : m ∈ cleanedLines text) :
    '\n' ∉ m := by
  unfold cleanedLines at hm
  have hm2 := (List.mem_filter.mp hm).1
  obtain ⟨m', hm', rfl⟩ := List.mem_map.mp hm2
  intro hnl
  exact not_nl_mem_of_mem_splitOnNl _ m' hm' (mem_strip hnl)

theorem keepLine_of_mem_cleanedLines {text m : List Char} (hm : m ∈ cleanedLines text) :
    keepLine m = true :=
  (List.mem_filter.mp hm).2

theorem cleanedLines_eq (text : List Char) :
    cleanedLines text =
      if keepLine (strip (collapseWS text)) = true
      then [strip (collapseWS text)] else [] := by
  unfold cleanedLines
  rw [splitOnNl_eq_of_not_mem (nl_not_mem_collapseWS text)]
  cases hk : keepLine (strip (collapseWS text)) <;> simp [List.filter, hk]

theorem clean_text_eq (text : List Char) (h : text ≠ []) :
    clean_text text =
      if keepLine (strip (collapseWS text)) = true
      then strip (collapseWS text) else [] := by
  unfold clean_text
  rw [if_neg h, cleanedLines_eq]
  by_cases hk : keepLine (strip (collapseWS text)) = true
  · rw [if_pos hk, if_pos hk]
    rfl
  · rw [if_neg hk, if_neg hk]
    rfl

theorem clean_text_lines {text : List Char} (hne : clean_text text ≠ []) :
    splitOnNl (clean_text text) = (cleanedLines text).take 10 := by
  have ht : text ≠ [] := by
    intro h
    apply hne
    simp [clean_text, h]
  unfold clean_text at hne ⊢
  rw [if_neg ht] at hne ⊢
  have hkept : (cleanedLines text).take 10 ≠ [] := by
    intro h
    rw [h] at hne
    exact hne rfl
  refine joinNl_split _ ?_ hkept
  intro m hm
  exact mem_cleanedLines_no_nl ((List.take_sublist _ _).subset hm)

/-- Claim C9: whitespace collapsing replaces every newline with a space
before `clean_text` splits on newlines, so the split yields exactly one
candidate line, and the output of `clean_text` contains no newline. -/
theorem c9_single_line_output (text : List Char) :
    splitOnNl (collapseWS text) = [collapseWS text] ∧ '\n' ∉ clean_text text := by
  refine ⟨splitOnNl_eq_of_not_mem (nl_not_mem_collapseWS text), ?_⟩
  by_cases ht : text = []
  · simp [clean_text, ht]
  · rw [clean_text_eq text ht]
    by_cases hk : keepLine (strip (collapseWS text)) = true
    · rw [if_pos hk]
      intro h
      exact nl_not_mem_collapseWS text (mem_strip h)
    · rw [if_neg hk]
      simp

/-- Claim C4: `clean_text` is idempotent — applying it to its own
output returns that output unchanged. -/
theorem c4_cleaner_idempotent (text : List Char) :
    clean_text (clean_text text) = clean_text text := by
  by_cases ht : text = []
  · rw [ht]
    rfl
  · rw [clean_text_eq text ht]
    by_cases hk : keepLine (strip (collapseWS text)) = true
    · rw [if_pos hk]
      have hlen : 30 < (strip (collapseWS text)).length := ((keepLine_iff _).mp hk).1
      have hne : strip (collapseWS text) ≠ [] := by
        intro h
        rw [h] at hlen
        simp at hlen
      rw [clean_text_eq _ hne, collapse_strip_collapse text, strip_idem, if_pos hk]
    · rw [if_neg hk]
      rfl

/-- Claim C3: the output of `clean_text` has at most 10 lines, the
output lines are exactly the first 10 surviving lines in original
order, and the surviving lines form an order-preserving sublist of the
stripped candidate lines. -/
theorem c3_output_at_most_ten_lines (text : List Char) :
    (splitOnNl (clean_text text)).length ≤ 10 ∧
      (clean_text text ≠ [] →
        splitOnNl (clean_text text) = (cleanedLines text).take 10 ∧
          ∃ rest, cleanedLines text = (cleanedLines text).take 10 ++ rest) ∧
      List.Sublist (cleanedLines text) ((splitOnNl (collapseWS text)).map strip) := by
  refine ⟨?_, ?_, List.filter_sublist _⟩
  · by_cases hne : clean_text text = []
    · rw [hne]
      simp [splitOnNl]
    · rw [clean_text_lines hne]
      exact List.length_take_le _ _
  · intro hne
    exact ⟨clean_text_lines hne, (cleanedLines text).drop 10,
      (List.take_append_drop _ _).symm⟩

set_option maxRecDepth 100000 in
/-- Witness for C3 at the concrete input of forty `a`s, whose cleaned
output is non-empty. -/
theorem c3_output_at_most_ten_lines_witness :
    splitOnNl (clean_text fortyAs) = (cleanedLines fortyAs).take 10 :=
  ((c3_output_at_most_ten_lines fortyAs).2.1 (by decide)).1

/-- Claim C2 (amended): a candidate line survives the filtering of
`clean_text` exactly when its trimmed length is strictly greater than
30 characters and its lowercased trimmed form contains none of the
denylist phrases; every line of the kept output satisfies both
conditions. -/
theorem c2_survival_strict_threshold :
    (∀ line : List Char, keepLine (strip line) = true ↔
      (30 < (strip line).length ∧
        ∀ p ∈ skip_phrases, listInfixOf p (lower (strip line)) = false)) ∧
    (∀ (text m : List Char), m ∈ (cleanedLines text).take 10 →
      30 < m.length ∧ ∀ p ∈ skip_phrases, listInfixOf p (lower m) = false) := by
  constructor
  · intro line
    exact keepLine_iff (strip line)
  · intro text m hm
    exact (keepLine_iff m).mp
      (keepLine_of_mem_cleanedLines ((List.take_sublist _ _).subset hm))

set_option maxRecDepth 100000 in
/-- Witness for C2 at the concrete kept line of forty `a`s. -/
theorem c2_survival_strict_threshold_witness :
    30 < fortyAs.length ∧ ∀ p ∈ skip_phrases, listInfixOf p (lower fortyAs) = false :=
  c2_survival_strict_threshold.2 fortyAs fortyAs (by decide)

set_option maxRecDepth 100000 in
/-- Counterexample to C2 as stated: a trimmed candidate line of exactly
30 characters containing no denylist phrase is NOT kept, because the
code requires `len(line) > 30`, not `>= 30`. -/
theorem c2_exact_thirty_counterexample :
    ¬ (keepLine (strip thirtyAs) = true ↔
      (30 ≤ (strip thirtyAs).length ∧
        ∀ p ∈ skip_phrases, listInfixOf p (lower (strip thirtyAs)) = false)) := by
  decide

set_option maxRecDepth 1000000 in
/-- Claim C1: evaluating `clean_text` at the spec's scenario input.  The
whitespace-collapsing step replaces both newlines with spaces before the
split, so the single surviving candidate line contains both "menu" and
"copyright" and is discarded: the result is the empty string, not the
middle line the spec expects. -/
theorem c1_cleaner_scenario_eval : clean_text c1_input = [] := by
  decide

theorem headingTags_level : ∀ tag ∈ headingTags,
    1 ≤ headingLevel tag ∧ headingLevel tag ≤ 6 := by
  decide

theorem isEmpty_false_iff (l : List Char) : l.isEmpty = false ↔ l ≠ [] := by
  cases l <;> simp

/-- Claim C5: every item produced by the extraction pass satisfies the
invariants — a heading has level 1 to 6 and trimmed text longer than
10 characters, a code item has trimmed text of at least 21 characters,
a paragraph has trimmed length strictly between 50 and 500, and no text
field is empty.  The hypothesis records the guarantee of the selector
`'h1, h2, h3, h4, h5, h6'`. -/
theorem c5_extraction_invariants (page : RenderedPage)
    (hwf : ∀ e ∈ page.headings, e.tagName ∈ headingTags) :
    ∀ item ∈ extractContent page,
      (∀ lvl txt, item = ExtractedItem.heading lvl txt →
        1 ≤ lvl ∧ lvl ≤ 6 ∧ 10 < txt.length ∧ txt ≠ []) ∧
      (∀ txt, item = ExtractedItem.code txt → 21 ≤ txt.length ∧ txt ≠ []) ∧
      (∀ txt, item = ExtractedItem.paragraph txt →
        50 < txt.length ∧ txt.length < 500 ∧ txt ≠ []) := by
  intro item hitem
  unfold extractContent at hitem
  rw [List.mem_append] at hitem
  rcases hitem with hAB | hC
  · rw [List.mem_append] at hAB
    rcases hAB with hA | hB
    · obtain ⟨e, he, heq⟩ := List.mem_filterMap.mp hA
      by_cases hlen : 10 < (strip e.textContent).length
      · rw [if_pos hlen] at heq
        obtain rfl := Option.some.inj heq
        refine ⟨?_, ?_, ?_⟩
        · intro lvl txt hq
          injection hq with h1 h2
          subst h1
          subst h2
          obtain ⟨hl1, hl2⟩ := headingTags_level _ (hwf e he)
          refine ⟨hl1, hl2, hlen, ?_⟩
          intro hq0
          rw [hq0] at hlen
          simp at hlen
        · intro txt hq
          exact ExtractedItem.noConfusion hq
        · intro txt hq
          exact ExtractedItem.noConfusion hq
      · rw [if_neg hlen] at heq
        exact absurd heq (by simp)
    · obtain ⟨e, he, heq⟩ := List.mem_filterMap.mp hB
      by_cases hlen : 20 < (strip e.textContent).length
      · rw [if_pos hlen] at heq
        obtain rfl := Option.some.inj heq
        refine ⟨?_, ?_, ?_⟩
        · intro lvl txt hq
          exact ExtractedItem.noConfusion hq
        · intro txt hq
          injection hq with h1
          subst h1
          refine ⟨hlen, ?_⟩
          intro hq0
          rw [hq0] at hlen
          simp at hlen
        · intro txt hq
          exact ExtractedItem.noConfusion hq
      · rw [if_neg hlen] at heq
        exact absurd heq (by simp)
  · obtain ⟨e, he, heq⟩ := List.mem_filterMap.mp hC
    by_cases hlen : 50 < (strip e.textContent).length ∧ (strip e.textContent).length < 500
    · rw [if_pos hlen] at heq
      obtain rfl := Option.some.inj heq
      refine ⟨?_, ?_, ?_⟩
      · intro lvl txt hq
        exact ExtractedItem.noConfusion hq
      · intro txt hq
        exact ExtractedItem.noConfusion hq
      · intro txt hq
        injection hq with h1
        subst h1
        refine ⟨hlen.1, hlen.2, ?_⟩
        intro hq0
        rw [hq0] at hlen
        simp at hlen
    · rw [if_neg hlen] at heq
      exact absurd heq (by simp)

set_option maxRecDepth 100000 in
/-- Witness for C5 at a page carrying a single `h2` heading. -/
theorem c5_extraction_invariants_witness :
    1 ≤ 2 ∧ 2 ≤ 6 ∧ 10 < ("Architecture of the protocol".toList).length ∧
      "Architecture of the protocol".toList ≠ [] :=
  (c5_extraction_invariants wfHeadingPage (by decide)
    (ExtractedItem.heading 2 ("Architecture of the protocol".toList)) (by decide)).1
    2 ("Architecture of the protocol".toList) rfl

/-- Claim C6: for every outcome of the browser operations, both
fetchers close the browser on every exit path, and whenever the `try`
body raises, the caught failure yields the empty result — `(None, [])`
for `scrape_content`, `[]` for `scrape_academic_content`; neither
function propagates the exception (both are total). -/
theorem c6_fetch_error_containment (env : FetchEnv) (aenv : AcadEnv) :
    (scrape_content env).2 = true ∧ (scrape_academic_content aenv).2 = true ∧
      (∀ e, fetchBody env = .error e → (scrape_content env).1 = (none, [])) ∧
      (∀ e, acadBody aenv = .error e → (scrape_academic_content aenv).1 = []) := by
  refine ⟨?_, ?_, ?_, ?_⟩
  · unfold scrape_content
    cases h : fetchBody env with
    | ok v => cases v; rfl
    | error e => rfl
  · unfold scrape_academic_content
    cases h : acadBody aenv <;> rfl
  · intro e he
    unfold scrape_content
    rw [he]
  · intro e he
    unfold scrape_academic_content
    rw [he]

/-- Witness for C6 at a navigation failure (unreachable URL): both
fetchers return the empty result. -/
theorem c6_fetch_error_containment_witness :
    (scrape_content fetchEnvErr).1 = (none, []) ∧
      (scrape_academic_content acadEnvErr).1 = [] :=
  ⟨(c6_fetch_error_containment fetchEnvErr acadEnvErr).2.2.1 _ rfl,
   (c6_fetch_error_containment fetchEnvErr acadEnvErr).2.2.2 _ rfl⟩

/-- Claim C7: an image element becomes an `ImageRef` exactly when its
source is non-empty and its width or height exceeds 100 pixels; an
80 by 80 image is dropped and a 120 by 50 image is kept. -/
theorem c7_image_filter_iff :
    (∀ (raws : List RawImg) (r : ImageRef), r ∈ extractImages raws ↔
      ((∃ i ∈ raws,
          r = ImageRef.mk i.src (i.alt.getD []) (i.width.getD 0) (i.height.getD 0)) ∧
        r.src ≠ [] ∧ (100 < r.width ∨ 100 < r.height))) ∧
    extractImages [img8080] = [] ∧
    extractImages [img12050] =
      [ImageRef.mk ("https://example.com/b.png".toList) [] 120 50] := by
  refine ⟨?_, by decide, by decide⟩
  intro raws r
  unfold extractImages
  rw [List.mem_filter]
  constructor
  · rintro ⟨hmem, hcond⟩
    obtain ⟨i, hi, rfl⟩ := List.mem_map.mp hmem
    simp only [Bool.and_eq_true, Bool.or_eq_true, decide_eq_true_eq,
      Bool.not_eq_true'] at hcond
    exact ⟨⟨i, hi, rfl⟩, (isEmpty_false_iff _).mp hcond.1, hcond.2⟩
  · rintro ⟨⟨i, hi, rfl⟩, hsrc, hwh⟩
    refine ⟨List.mem_map.mpr ⟨i, hi, rfl⟩, ?_⟩
    simp only [Bool.and_eq_true, Bool.or_eq_true, decide_eq_true_eq,
      Bool.not_eq_true']
    exact ⟨(isEmpty_false_iff _).mpr hsrc, hwh⟩

/-- Claim C10: the paper produced by
`generate_high_quality_academic_paper` does not depend on the scraped
content — any two scraped-content lists give the same output string. -/
theorem c10_paper_independent_of_scraped (topic_data : Topic)
    (sc1 sc2 : List ExtractedItem) (current_date current_time : List Char) :
    generate_high_quality_academic_paper topic_data sc1 current_date current_time =
      generate_high_quality_academic_paper topic_data sc2 current_date current_time := by
  unfold generate_high_quality_academic_paper
  split_ifs <;> rfl

/-- Claim C8 (amended): the enhanced renderer selects the fixed template
keyed by the topic focus and its output contains the topic title and the
current date and time at fixed positions; the scraper's renderer selects
one of its three fixed templates by `hash(topic) % 3` and its output
contains the cleaned scraped text at a fixed position. -/
theorem c8_renderer_amended :
    (∀ (topic_data : Topic) (sc : List ExtractedItem) (d tm : List Char),
      (∃ u v, generate_high_quality_academic_paper topic_data sc d tm =
        u ++ topic_data.title ++ v) ∧
      (∃ u v, generate_high_quality_academic_paper topic_data sc d tm =
        u ++ (d ++ " ".toList ++ tm) ++ v)) ∧
    (∀ (sc topic : List Char) (pyHash : List Char → Nat) (tm : List Char),
      ∃ u v, generate_academic_content sc topic pyHash tm = u ++ sc ++ v) := by
  constructor
  · intro t sc d tm
    unfold generate_high_quality_academic_paper
    split_ifs
    · refine ⟨⟨"# ".toList, architectureMid ++ d ++ " ".toList ++ tm ++ architectureTail, ?_⟩,
        ⟨"# ".toList ++ t.title ++ architectureMid, architectureTail, ?_⟩⟩ <;>
        simp [_generate_architecture_paper, List.append_assoc]
    · refine ⟨⟨"# ".toList, securityMid ++ d ++ " ".toList ++ tm ++ securityTail, ?_⟩,
        ⟨"# ".toList ++ t.title ++ securityMid, securityTail, ?_⟩⟩ <;>
        simp [_generate_security_paper, List.append_assoc]
    · refine ⟨⟨"# ".toList, performanceMid ++ d ++ " ".toList ++ tm ++ performanceTail, ?_⟩,
        ⟨"# ".toList ++ t.title ++ performanceMid, performanceTail, ?_⟩⟩ <;>
        simp [_generate_performance_paper, List.append_assoc]
    · refine ⟨⟨"# ".toList, integrationMid ++ d ++ " ".toList ++ tm ++ integrationTail, ?_⟩,
        ⟨"# ".toList ++ t.title ++ integrationMid, integrationTail, ?_⟩⟩ <;>
        simp [_generate_integration_paper, List.append_assoc]
    · refine ⟨⟨"# ".toList, contextMid ++ d ++ " ".toList ++ tm ++ contextTail, ?_⟩,
        ⟨"# ".toList ++ t.title ++ contextMid, contextTail, ?_⟩⟩ <;>
        simp [_generate_context_paper, List.append_assoc]
  · intro sc topic pyHash tm
    have h3 : pyHash topic % 3 = 0 ∨ pyHash topic % 3 = 1 ∨ pyHash topic % 3 = 2 := by
      omega
    unfold generate_academic_content
    rcases h3 with h | h | h <;> rw [h]
    · exact ⟨introS1 ++ tm ++ introS2, introS3, rfl⟩
    · exact ⟨techS1 ++ tm ++ techS2, techS3, rfl⟩
    · exact ⟨caseS1, caseS2, rfl⟩

set_option maxRecDepth 1000000 in
theorem intro_template_short :
    (generate_academic_content [] hugeTopic pyHashZero ("12:00:00".toList)).length < 2000 := by
  decide

/-- Counterexample to C8 as stated: the scraper's renderer never
substitutes the topic title — with a topic string of 2000 characters and
empty scraped content, the rendered output is shorter than the title, so
it cannot contain it. -/
theorem c8_renderer_counterexample :
    ¬ ∃ u v, generate_academic_content [] hugeTopic pyHashZero ("12:00:00".toList) =
      u ++ hugeTopic ++ v := by
  rintro ⟨u, v, h⟩
  have hlen := congrArg List.length h
  rw [List.length_append, List.length_append] at hlen
  have h2000 : hugeTopic.length = 2000 := by
    unfold hugeTopic
    exact List.length_replicate 2000 'z'
  have hshort := intro_template_short
  omega
